import Mathlib

/-!
Verification of the interbank-contagion simulation core.

Shallow embedding of `backend/app/core/{balance_sheet,bank,market,simulation_v2,
stateful_simulation}.py` and of the per-step kernel in
`backend/app/routers/interactive_simulation.py`. Python floats are modelled as
rationals; the `random.uniform` draws are passed in explicitly (either as a
single draw or as a threaded draw stream), so every function is deterministic
and executable. Python dictionaries (`investment_positions`, `loan_positions`,
per-step `step_market_flows`) are modelled as association lists with unique
keys; transaction-ledger logging, which no verified property depends on, is not
modelled.
-/

namespace Spec2Proof

/-- Lookup in an association list, defaulting to 0 (Python `d.get(k, 0)`). -/
def alookup {α : Type} [BEq α] (m : List (α × ℚ)) (k : α) : ℚ :=
  match m.find? (fun p => p.1 == k) with
  | some p => p.2
  | none => 0

/-- Insert-or-update of a key (Python `d[k] = v`): replaces the first binding of
`k`, appending at the end when absent, preserving iteration order. -/
def aset {α : Type} [BEq α] : List (α × ℚ) → α → ℚ → List (α × ℚ)
  | [], k, v => [(k, v)]
  | (k', v') :: rest, k, v =>
      if k' == k then (k, v) :: rest else (k', v') :: aset rest k v

/-- Key removal (Python `del d[k]`); on the unique-key lists produced by `aset`
this agrees with deleting the single binding. -/
def aerase {α : Type} [BEq α] (m : List (α × ℚ)) (k : α) : List (α × ℚ) :=
  m.filter (fun p => !(p.1 == k))

theorem alookup_aerase {α : Type} [BEq α] [LawfulBEq α]
    (m : List (α × ℚ)) (k : α) : alookup (aerase m k) k = 0 := by
  induction m with
  | nil => rfl
  | cons p rest ih =>
      by_cases h : p.1 = k
      · simpa [aerase, alookup, h] using ih
      · have hb : (p.1 == k) = false := beq_false_of_ne h
        simpa [aerase, alookup, List.find?, hb] using ih

/-- Per-bank balance sheet (`balance_sheet.py`). `equity` and `total_assets`
are derived read-only properties in the source. -/
structure BalanceSheet where
  cash : ℚ := 100
  investments : ℚ := 0
  loans_given : ℚ := 0
  borrowed : ℚ := 50
  investment_positions : List (String × ℚ) := []
  loan_positions : List (Nat × ℚ) := []
deriving Repr, DecidableEq

def BalanceSheet.total_assets (bs : BalanceSheet) : ℚ :=
  bs.cash + bs.investments + bs.loans_given

def BalanceSheet.total_liabilities (bs : BalanceSheet) : ℚ := bs.borrowed

def BalanceSheet.equity (bs : BalanceSheet) : ℚ :=
  bs.total_assets - bs.total_liabilities

/-- Default predicate (`BalanceSheet.is_defaulted` property): `equity < 0`. -/
def BalanceSheet.is_defaulted (bs : BalanceSheet) : Bool := decide (bs.equity < 0)

/-- Ratio guards from `compute_ratios`: denominators floored at 0.01. -/
def BalanceSheet.leverage (bs : BalanceSheet) : ℚ :=
  bs.total_assets / max bs.equity (1/100)

def BalanceSheet.liquidityRat (bs : BalanceSheet) : ℚ :=
  bs.cash / max bs.total_assets (1/100)

/-- Bank agent (`bank.py`); only the fields the verified operations read or
write are modelled (name, targets and telemetry fields are inert here). -/
structure Bank where
  bank_id : Nat
  balance_sheet : BalanceSheet := {}
  is_defaulted : Bool := false
  past_defaults : Nat := 0
  risk_appetite : ℚ := 1/2
deriving Repr, DecidableEq

inductive BankAction
  | INCREASE_LENDING | DECREASE_LENDING | INVEST_MARKET | DIVEST_MARKET | HOARD_CASH
deriving Repr, DecidableEq

/-- `Bank.execute_action` (bank.py 80-152): default guard, then the
pre-clamp `amount = max(0, min(amount, cash*0.5))`, then the dispatch table.
Ledger logging is omitted; `last_action`/`action_history` are telemetry. -/
def Bank.execute_action (b : Bank) (action : BankAction)
    (counterparty_id : Option Nat) (market_id : String) (amount : ℚ) : Bank :=
  if b.is_defaulted then b else
  let amt := max 0 (min amount (b.balance_sheet.cash * (1/2)))
  match action with
  | .INCREASE_LENDING =>
      match counterparty_id with
      | some cp =>
          if 0 < amt then
            { b with balance_sheet :=
              { b.balance_sheet with
                cash := b.balance_sheet.cash - amt
                loans_given := b.balance_sheet.loans_given + amt
                loan_positions :=
                  aset b.balance_sheet.loan_positions cp
                    (alookup b.balance_sheet.loan_positions cp + amt) } }
          else b
      | none => b
  | .DECREASE_LENDING =>
      match counterparty_id with
      | some cp =>
          let current_loan := alookup b.balance_sheet.loan_positions cp
          let reduce_amount := min amt current_loan
          if 0 < reduce_amount then
            { b with balance_sheet :=
              { b.balance_sheet with
                cash := b.balance_sheet.cash + reduce_amount
                loans_given := b.balance_sheet.loans_given - reduce_amount
                loan_positions :=
                  aset b.balance_sheet.loan_positions cp (current_loan - reduce_amount) } }
          else b
      | none => b
  | .INVEST_MARKET =>
      if 0 < amt then
        { b with balance_sheet :=
          { b.balance_sheet with
            cash := b.balance_sheet.cash - amt
            investments := b.balance_sheet.investments + amt
            investment_positions :=
              aset b.balance_sheet.investment_positions market_id
                (alookup b.balance_sheet.investment_positions market_id + amt) } }
      else b
  | .DIVEST_MARKET =>
      let current_position := alookup b.balance_sheet.investment_positions market_id
      let divest_amount := min amt current_position
      if 0 < divest_amount then
        { b with balance_sheet :=
          { b.balance_sheet with
            cash := b.balance_sheet.cash + divest_amount
            investments := b.balance_sheet.investments - divest_amount
            investment_positions :=
              aset b.balance_sheet.investment_positions market_id
                (current_position - divest_amount) } }
      else b
  | .HOARD_CASH => b

/-- `Bank.apply_loss` (bank.py 154-161): `actual = min(amount, cash)`, cash
reduced by `actual`. -/
def Bank.apply_loss (b : Bank) (amount : ℚ) : Bank :=
  let actual_loss := min amount b.balance_sheet.cash
  { b with balance_sheet :=
    { b.balance_sheet with cash := b.balance_sheet.cash - actual_loss } }

/-- `Bank.check_default` (bank.py 163-168): one-way transition; returns whether
the bank newly defaulted. -/
def Bank.check_default (b : Bank) : Bank × Bool :=
  if b.balance_sheet.is_defaulted && !b.is_defaulted then
    ({ b with is_defaulted := true, past_defaults := b.past_defaults + 1 }, true)
  else (b, false)

/-- Tradable market index (`market.py`). -/
structure Market where
  market_id : String
  initial_price : ℚ := 100
  price : ℚ := 100
  total_invested : ℚ := 0
  price_history : List ℚ := [100]
  flow_history : List ℚ := []
  price_sensitivity : ℚ := 2/1000
  volatility : ℚ := 3/100
deriving Repr, DecidableEq

def Market.get_return (m : Market) : ℚ :=
  (m.price - m.initial_price) / m.initial_price

/-- `Market.apply_flow` (market.py 24-45) with the `random.uniform(-volatility,
volatility)` draw passed in as `u`: price change is supply/demand impact plus
`u * price` plus momentum; the new price is floored at 1.0 and appended to the
history, and `total_invested` grows by the net flow. -/
def Market.apply_flow (m : Market) (net_flow u : ℚ) : Market :=
  let supply_demand_impact := net_flow * m.price_sensitivity
  let random_shock := u * m.price
  let momentum : ℚ :=
    if 3 ≤ m.price_history.length then
      (m.price_history.reverse.getD 0 0 - m.price_history.reverse.getD 2 0) * (1/10)
    else 0
  let price_change := supply_demand_impact + random_shock + momentum
  let new_price := max 1 (m.price + price_change)
  { m with
    price := new_price
    total_invested := m.total_invested + net_flow
    flow_history := m.flow_history ++ [net_flow]
    price_history := m.price_history ++ [new_price] }

/-- Phase-4 kernel handling of a DIVEST_MARKET action
(interactive_simulation.py 325-376): `execute_action` is called first, then —
whenever the chosen market exists — `amount * market.get_return()` is credited
to the bank's cash as the realised gain, where `amount` is the requested
(router-clamped) amount, not the quantity actually divested. Returns the
updated bank and the credited gain. -/
def kernelDivest (b : Bank) (m : Market) (amount : ℚ) : Bank × ℚ :=
  let b1 := b.execute_action .DIVEST_MARKET none m.market_id amount
  let market_gain := amount * m.get_return
  ({ b1 with balance_sheet :=
      { b1.balance_sheet with cash := b1.balance_sheet.cash + market_gain } },
   market_gain)

/-- A solvent bank holding no position in market `M`. -/
def c1Bank : Bank :=
  { bank_id := 0
    balance_sheet :=
      { cash := 100, investments := 0, loans_given := 0, borrowed := 0
        investment_positions := [], loan_positions := [] } }

/-- Market `M` trading 50% above its initial price. -/
def c1Market : Market := { market_id := "M", initial_price := 100, price := 150 }

/-- A solvent bank holding a position of 4 in market `M`. -/
def c1WitBank : Bank :=
  { bank_id := 0
    balance_sheet :=
      { cash := 100, investments := 4, loans_given := 0, borrowed := 0
        investment_positions := [("M", 4)], loan_positions := [] } }

/-- C1 counterexample: a bank holding no position in the chosen market divests
10 at a 50% market return; the kernel credits a realised gain of 5 (and cash
becomes 105), whereas the claim says the gain is `min(clamped amount, position)
· return = 0`. -/
theorem C1_counterexample :
    (kernelDivest c1Bank c1Market 10).2 = 5 ∧
    (kernelDivest c1Bank c1Market 10).1.balance_sheet.cash = 105 ∧
    ¬ ((kernelDivest c1Bank c1Market 10).2 = 0) := by
  norm_num [kernelDivest, c1Bank, c1Market, Bank.execute_action,
    Market.get_return, alookup]

/-- C1 amended: for a non-defaulted bank the realised gain credited by the
kernel equals `amount · marketReturn` for the requested amount — independent of
the held position — while the principal returned to cash and the reduction of
`investments` both equal the actually divested quantity
`min(max(0, min(amount, cash·0.5)), position)` (0 when that is non-positive). -/
theorem C1_amended (b : Bank) (m : Market) (amount : ℚ)
    (hb : b.is_defaulted = false) :
    (kernelDivest b m amount).2 = amount * m.get_return ∧
    (kernelDivest b m amount).1.balance_sheet.cash
      = b.balance_sheet.cash
        + max (min (max 0 (min amount (b.balance_sheet.cash * (1/2))))
            (alookup b.balance_sheet.investment_positions m.market_id)) 0
        + amount * m.get_return ∧
    b.balance_sheet.investments
        - (kernelDivest b m amount).1.balance_sheet.investments
      = max (min (max 0 (min amount (b.balance_sheet.cash * (1/2))))
          (alookup b.balance_sheet.investment_positions m.market_id)) 0 := by
  set amt := max 0 (min amount (b.balance_sheet.cash * (1/2))) with hamt
  set pos := alookup b.balance_sheet.investment_positions m.market_id with hpos
  by_cases h : 0 < min amt pos
  · have hmax : max (min amt pos) 0 = min amt pos := max_eq_left h.le
    refine ⟨rfl, ?_, ?_⟩ <;>
      simp only [kernelDivest, Bank.execute_action, hb, Bool.false_eq_true,
        if_false, ← hamt, ← hpos, h, if_true, hmax] <;> ring
  · have hmax : max (min amt pos) 0 = 0 := max_eq_right (le_of_not_lt h)
    refine ⟨rfl, ?_, ?_⟩ <;>
      simp only [kernelDivest, Bank.execute_action, hb, Bool.false_eq_true,
        if_false, ← hamt, ← hpos, h, if_false, hmax] <;> ring

/-- C1 witness: the amended theorem applied to a bank with cash 100 and a
position of 4, divesting 10 at a 50% return: cash becomes 100 + 4 + 5. -/
theorem C1_amended_witness :
    c1WitBank.is_defaulted = false ∧
    (kernelDivest c1WitBank c1Market 10).1.balance_sheet.cash = 109 := by
  have h := C1_amended c1WitBank c1Market 10 rfl
  refine ⟨rfl, ?_⟩
  rw [h.2.1]
  norm_num [c1WitBank, c1Market, alookup, Market.get_return]

/-- C8: `apply_flow(net)` with a volatility draw `u ∈ [−volatility, volatility]`
sets the price to `max(1, price + Δ)` with
`Δ = net·priceSensitivity + u·price + momentum` (momentum `0.1·(price[t−1] −
price[t−3])` when at least 3 history points exist, else 0), appends the new
price to the history, adds `net` to `total_invested`, and the resulting price
is always ≥ 1. -/
theorem C8_apply_flow (m : Market) (net u : ℚ)
    (hu : -m.volatility ≤ u ∧ u ≤ m.volatility) :
    (m.apply_flow net u).price
      = max 1 (m.price + (net * m.price_sensitivity + u * m.price +
          (if 3 ≤ m.price_history.length then
            (m.price_history.reverse.getD 0 0
              - m.price_history.reverse.getD 2 0) * (1/10)
           else 0))) ∧
    (m.apply_flow net u).price_history
      = m.price_history ++ [(m.apply_flow net u).price] ∧
    (m.apply_flow net u).total_invested = m.total_invested + net ∧
    1 ≤ (m.apply_flow net u).price :=
  ⟨rfl, rfl, rfl, le_max_left 1 _⟩

/-- A fresh default market used to witness C8. -/
def c8Market : Market := { market_id := "M" }

/-- C8 witness: the theorem applied to a fresh market, net flow 5, draw 0. -/
theorem C8_apply_flow_witness :
    (-c8Market.volatility ≤ (0:ℚ) ∧ (0:ℚ) ≤ c8Market.volatility) ∧
    1 ≤ (c8Market.apply_flow 5 0).price := by
  have hu : -c8Market.volatility ≤ (0:ℚ) ∧ (0:ℚ) ≤ c8Market.volatility := by
    norm_num [c8Market]
  exact ⟨hu, (C8_apply_flow c8Market 5 0 hu).2.2.2⟩

theorem alookup_aset {α : Type} [BEq α] [LawfulBEq α]
    (m : List (α × ℚ)) (k : α) (v : ℚ) : alookup (aset m k v) k = v := by
  induction m with
  | nil => simp [aset, alookup, List.find?]
  | cons p rest ih =>
      by_cases h : p.1 = k
      · simp [aset, alookup, List.find?, h]
      · have hb : (p.1 == k) = false := beq_false_of_ne h
        simpa [aset, alookup, List.find?, hb] using ih

/-- Placeholder bank used as the `getD` default when indexing bank lists. -/
def dummyBank : Bank := { bank_id := 0 }

def findBank (banks : List Bank) (bid : Nat) : Option Bank :=
  banks.find? (fun b => b.bank_id == bid)

/-- Apply `f` to the first bank with id `bid`, leaving every other element
untouched (the kernel mutates one `Bank` object found by id). -/
def updateBank : List Bank → Nat → (Bank → Bank) → List Bank
  | [], _, _ => []
  | b :: rest, bid, f =>
      if b.bank_id == bid then f b :: rest else b :: updateBank rest bid f

theorem updateBank_length (banks : List Bank) (bid : Nat) (f : Bank → Bank) :
    (updateBank banks bid f).length = banks.length := by
  induction banks with
  | nil => rfl
  | cons b rest ih => by_cases h : b.bank_id == bid <;> simp [updateBank, h, ih]

theorem updateBank_getD_ne (banks : List Bank) (bid : Nat) (f : Bank → Bank) :
    ∀ i : Nat, i < banks.length → (banks.getD i dummyBank).bank_id ≠ bid →
      (updateBank banks bid f).getD i dummyBank = banks.getD i dummyBank := by
  induction banks with
  | nil => intro i hi; simp at hi
  | cons b rest ih =>
      intro i hi hne
      by_cases h : b.bank_id == bid
      · match i with
        | 0 => exact absurd (eq_of_beq h) (by simpa using hne)
        | i + 1 => simp [updateBank, h]
      · match i with
        | 0 => simp [updateBank, h]
        | i + 1 =>
            have hi' : i < rest.length := by simpa using hi
            simpa [updateBank, h] using ih i hi' (by simpa using hne)

/-- One mid-simulation INCREASE_LENDING execution as the kernel performs it
(interactive_simulation.py 325-332): `bank.execute_action(...)` touches only
the acting lender; no other bank in the session is written. -/
def kernelLend (banks : List Bank) (lender_id cp : Nat) (amount : ℚ) :
    List Bank :=
  updateBank banks lender_id
    (fun b => b.execute_action .INCREASE_LENDING (some cp) "BANK_INDEX" amount)

/-- One initial-network loan creation (simulation_v2.py `_create_interbank_network`
214-220): guarded by `lender.cash >= amount`, it debits the lender and
simultaneously credits the borrower's cash and records the liability in
`borrowed`. -/
def networkLoan (lender borrower : Bank) (amount : ℚ) : Bank × Bank :=
  if amount ≤ lender.balance_sheet.cash then
    ({ lender with balance_sheet :=
        { lender.balance_sheet with
          cash := lender.balance_sheet.cash - amount
          loans_given := lender.balance_sheet.loans_given + amount
          loan_positions :=
            aset lender.balance_sheet.loan_positions borrower.bank_id
              (alookup lender.balance_sheet.loan_positions borrower.bank_id
                + amount) } },
     { borrower with balance_sheet :=
        { borrower.balance_sheet with
          cash := borrower.balance_sheet.cash + amount
          borrowed := borrower.balance_sheet.borrowed + amount } })
  else (lender, borrower)

/-- C10: mid-simulation INCREASE_LENDING mutates only the acting lender
(cash down by the clamped amount, loansGiven and the counterparty loan
position up by the same amount, `borrowed` untouched); every other bank —
in particular the counterparty — is left unchanged, whereas initial
interbank-network creation credits the borrower's cash and `borrowed`
simultaneously. -/
theorem C10_lending_frame :
    (∀ (banks : List Bank) (lid cp : Nat) (a : ℚ) (i : Nat),
      i < banks.length → (banks.getD i dummyBank).bank_id ≠ lid →
        (kernelLend banks lid cp a).getD i dummyBank = banks.getD i dummyBank) ∧
    (∀ (b : Bank) (cp : Nat) (a : ℚ),
      b.is_defaulted = false →
      0 < max 0 (min a (b.balance_sheet.cash * (1/2))) →
        (b.execute_action .INCREASE_LENDING (some cp) "BANK_INDEX" a).balance_sheet.cash
            = b.balance_sheet.cash - max 0 (min a (b.balance_sheet.cash * (1/2))) ∧
        (b.execute_action .INCREASE_LENDING (some cp) "BANK_INDEX" a).balance_sheet.loans_given
            = b.balance_sheet.loans_given + max 0 (min a (b.balance_sheet.cash * (1/2))) ∧
        alookup (b.execute_action .INCREASE_LENDING (some cp) "BANK_INDEX" a).balance_sheet.loan_positions cp
            = alookup b.balance_sheet.loan_positions cp
              + max 0 (min a (b.balance_sheet.cash * (1/2))) ∧
        (b.execute_action .INCREASE_LENDING (some cp) "BANK_INDEX" a).balance_sheet.borrowed
            = b.balance_sheet.borrowed) ∧
    (∀ (lender borrower : Bank) (a : ℚ),
      a ≤ lender.balance_sheet.cash →
        (networkLoan lender borrower a).2.balance_sheet.cash
            = borrower.balance_sheet.cash + a ∧
        (networkLoan lender borrower a).2.balance_sheet.borrowed
            = borrower.balance_sheet.borrowed + a) := by
  refine ⟨?_, ?_, ?_⟩
  · intro banks lid cp a i hi hne
    exact updateBank_getD_ne banks lid _ i hi hne
  · intro b cp a hb hpos
    refine ⟨?_, ?_, ?_, ?_⟩ <;>
      simp only [Bank.execute_action, hb, Bool.false_eq_true, if_false, hpos,
        if_true]
    exact alookup_aset _ _ _
  · intro lender borrower a ha
    simp [networkLoan, ha]

/-- Concrete two-bank setup witnessing C10. -/
def c10Lender : Bank :=
  { bank_id := 0
    balance_sheet := { cash := 100, investments := 0, loans_given := 0
                       borrowed := 0, investment_positions := []
                       loan_positions := [] } }

/-- Borrower bank for the C10 witness. -/
def c10Borrower : Bank :=
  { bank_id := 1
    balance_sheet := { cash := 50, investments := 0, loans_given := 0
                       borrowed := 20, investment_positions := []
                       loan_positions := [] } }

/-- C10 witness: with banks `[lender, borrower]`, lending 10 from bank 0
leaves the borrower entry untouched, debits the lender by 10, and the
initial-network variant credits the borrower with cash 60 and borrowed 30. -/
theorem C10_lending_frame_witness :
    (kernelLend [c10Lender, c10Borrower] 0 1 10).getD 1 dummyBank = c10Borrower ∧
    (c10Lender.execute_action .INCREASE_LENDING (some 1) "BANK_INDEX" 10).balance_sheet.cash = 90 ∧
    (networkLoan c10Lender c10Borrower 10).2.balance_sheet.cash = 60 ∧
    (networkLoan c10Lender c10Borrower 10).2.balance_sheet.borrowed = 30 := by
  have h1 := C10_lending_frame.1 [c10Lender, c10Borrower] 0 1 10 1
    (by norm_num) (by norm_num [c10Borrower])
  have h2 := C10_lending_frame.2.1 c10Lender 1 10 rfl
    (by norm_num [c10Lender])
  have h3 := C10_lending_frame.2.2 c10Lender c10Borrower 10
    (by norm_num [c10Lender])
  refine ⟨by simpa using h1, ?_, ?_, ?_⟩
  · rw [h2.1]; norm_num [c10Lender]
  · rw [h3.1]; norm_num [c10Borrower]
  · rw [h3.2]; norm_num [c10Borrower]

/-- Session lifecycle states (`stateful_simulation.py`, enum
`SimulationState`; renamed here to avoid clashing with the kernel state
record). -/
inductive LifecycleState
  | UNINITIALIZED | INITIALIZED | RUNNING | PAUSED | STOPPED | COMPLETED
deriving Repr, DecidableEq

/-- Lifecycle-relevant fields of `StatefulSimulation`: the step phases mutate
only bank/market payload, never `state` or `current_step`, so they are out of
scope for the lifecycle claims. -/
structure Session where
  lifecycle : LifecycleState
  current_step : Nat
  total_steps : Nat
deriving Repr, DecidableEq

/-- `StatefulSimulation.start` (stateful_simulation.py 327-340): the guard
raises before any mutation. -/
def startOp (s : Session) : Except String Unit × Session :=
  if s.lifecycle = .INITIALIZED then (.ok (), { s with lifecycle := .RUNNING })
  else (.error "Cannot start", s)

/-- `StatefulSimulation.pause` (342-348). -/
def pauseOp (s : Session) : Except String Unit × Session :=
  if s.lifecycle = .RUNNING then (.ok (), { s with lifecycle := .PAUSED })
  else (.error "Cannot pause", s)

/-- `StatefulSimulation.resume` (350-356). -/
def resumeOp (s : Session) : Except String Unit × Session :=
  if s.lifecycle = .PAUSED then (.ok (), { s with lifecycle := .RUNNING })
  else (.error "Cannot resume", s)

/-- `StatefulSimulation.stop` (358-370). -/
def stopOp (s : Session) : Except String Unit × Session :=
  if s.lifecycle = .RUNNING ∨ s.lifecycle = .PAUSED then
    (.ok (), { s with lifecycle := .STOPPED })
  else (.error "Cannot stop", s)

/-- `StatefulSimulation.execute_step` (372-434), lifecycle skeleton: the
RUNNING guard raises first; at the step limit the session completes without
advancing; otherwise the step counter increments and the nine phases run. -/
def stepOp (s : Session) : Except String Unit × Session :=
  if s.lifecycle = .RUNNING then
    if s.total_steps ≤ s.current_step then
      (.ok (), { s with lifecycle := .COMPLETED })
    else (.ok (), { s with current_step := s.current_step + 1 })
  else (.error "Cannot execute step", s)

/-- C9: start succeeds iff INITIALIZED, pause iff RUNNING, resume iff PAUSED,
stop iff RUNNING or PAUSED, and step execution iff RUNNING; every illegal
transition fails with a precondition error and leaves the session — state and
step counter included — unchanged. -/
theorem C9_lifecycle : ∀ s : Session,
    (((startOp s).1 = .ok ()) ↔ s.lifecycle = .INITIALIZED) ∧
    (¬ s.lifecycle = .INITIALIZED → (startOp s).2 = s) ∧
    (((pauseOp s).1 = .ok ()) ↔ s.lifecycle = .RUNNING) ∧
    (¬ s.lifecycle = .RUNNING → (pauseOp s).2 = s) ∧
    (((resumeOp s).1 = .ok ()) ↔ s.lifecycle = .PAUSED) ∧
    (¬ s.lifecycle = .PAUSED → (resumeOp s).2 = s) ∧
    (((stopOp s).1 = .ok ()) ↔ (s.lifecycle = .RUNNING ∨ s.lifecycle = .PAUSED)) ∧
    (¬ (s.lifecycle = .RUNNING ∨ s.lifecycle = .PAUSED) → (stopOp s).2 = s) ∧
    (((stepOp s).1 = .ok ()) ↔ s.lifecycle = .RUNNING) ∧
    (¬ s.lifecycle = .RUNNING → (stepOp s).2 = s) := by
  intro s
  rcases s with ⟨st, cs, ts⟩
  cases st <;>
    simp [startOp, pauseOp, resumeOp, stopOp, stepOp] <;>
    by_cases h : ts ≤ cs <;> simp [h]

/-- An INITIALIZED session used to witness C9. -/
def c9Session : Session :=
  { lifecycle := .INITIALIZED, current_step := 0, total_steps := 10 }

/-- C9 witness: on an INITIALIZED session, `stop` is an illegal transition and
leaves the session unchanged, while `start` succeeds. -/
theorem C9_lifecycle_witness :
    (stopOp c9Session).2 = c9Session ∧ (startOp c9Session).1 = .ok () := by
  refine ⟨(C9_lifecycle c9Session).2.2.2.2.2.2.2.1 (by decide), ?_⟩
  exact ((C9_lifecycle c9Session).1).mpr (by decide)

/-- `local_stress` from `Bank.observe_local_state` (bank.py 72):
`min(1, neighbor_defaults / 5)`. -/
def local_stress (nd : Nat) : ℚ := min 1 ((nd : ℚ) / 5)

/-- Health score of the per-step dynamic risk update
(interactive_simulation.py 571-581), before the clamp at line 582. -/
def computeHealth (b : Bank) (nd : Nat) : ℚ :=
  let leverage_score := max 0 (1 - b.balance_sheet.leverage / 8)
  let liquidity_score := min 1 (b.balance_sheet.liquidityRat / (1/2))
  let equity_score := min 1 (b.balance_sheet.equity / 100)
  (leverage_score * (3/10) + liquidity_score * (3/10) + equity_score * (3/10))
    * (1 - local_stress nd * (1/2))

/-- The per-step risk-appetite update (interactive_simulation.py 568-587):
the health score is clamped to [0.05, 0.95] first, then blended 80/20 with the
old appetite, then clamped again. -/
def updateRiskAppetite (b : Bank) (nd : Nat) : ℚ :=
  let health := max (1/20) (min (19/20) (computeHealth b nd))
  max (1/20) (min (19/20) (b.risk_appetite * (8/10) + health * (2/10)))

/-- Modelled from the claim's words, for comparison with the code: the new
risk appetite as `0.8·old + 0.2·health` with the raw (unclamped) health. -/
def claimRiskAppetite (b : Bank) (nd : Nat) : ℚ :=
  (8/10) * b.risk_appetite + (2/10) * computeHealth b nd

/-- A solvent bank with tiny equity and no cash: raw health 0.0003. -/
def c7Bank : Bank :=
  { bank_id := 0
    balance_sheet := { cash := 0, investments := 80, loans_given := 0
                       borrowed := 799/10, investment_positions := []
                       loan_positions := [] }
    risk_appetite := 1/2 }

/-- C7 counterexample: for a solvent bank with raw health 0.0003 (below the
0.05 clamp) and no stressed neighbours, the code yields 0.41 while the claim's
formula yields 0.40006, and both lie inside [0.05, 0.95], so the difference is
not hidden by the final clamp. -/
theorem C7_counterexample :
    updateRiskAppetite c7Bank 0 = 41/100 ∧
    claimRiskAppetite c7Bank 0 = 20003/50000 ∧
    ¬ (updateRiskAppetite c7Bank 0 = claimRiskAppetite c7Bank 0) := by
  norm_num [updateRiskAppetite, claimRiskAppetite, computeHealth, local_stress,
    c7Bank, BalanceSheet.leverage, BalanceSheet.liquidityRat,
    BalanceSheet.equity, BalanceSheet.total_assets,
    BalanceSheet.total_liabilities]

/-- C7 amended: the new risk appetite equals
`clamp(0.8·old + 0.2·clamp(health, 0.05, 0.95), 0.05, 0.95)` where health is
the stated leverage/liquidity/equity/stress formula, and the result always
lies in [0.05, 0.95]. -/
theorem C7_amended : ∀ (b : Bank) (nd : Nat),
    updateRiskAppetite b nd
      = max (1/20) (min (19/20)
          ((8/10) * b.risk_appetite
            + (2/10) * max (1/20) (min (19/20) (computeHealth b nd)))) ∧
    1/20 ≤ updateRiskAppetite b nd ∧ updateRiskAppetite b nd ≤ 19/20 := by
  intro b nd
  refine ⟨?_, le_max_left _ _, ?_⟩
  · unfold updateRiskAppetite
    congr 2
    ring
  · unfold updateRiskAppetite
    exact max_le (by norm_num) (min_le_left _ _)

/-- Error outcomes of the `/trigger_default` endpoint. -/
inductive HttpFailure
  | notFound (detail : String)
  | badRequest (detail : String)
  | attributeError
deriving Repr, DecidableEq

/-- Kernel simulation state (`simulation_v2.py`, dataclass `SimulationState`);
the `markets` field is omitted because none of the verified control/cascade
paths read it. -/
structure SimStateL where
  time_step : Nat := 0
  banks : List Bank := []
  defaults_this_step : List Nat := []
  cascade_depth : Nat := 0
deriving Repr, DecidableEq

/-- The POST `/trigger_default` endpoint (interactive_simulation.py 792-840).
Two Python facts are embedded faithfully: (1) the guard `if not
command.bank_id` treats a bank id of 0 like a missing id (integer 0 is falsy);
(2) the statement `target_bank.balance_sheet.equity = -1` assigns to
`BalanceSheet.equity`, which is a read-only derived `@property`
(balance_sheet.py 32-34, no setter), so Python raises `AttributeError` there —
before `is_defaulted = True` on the following line — leaving the state
unmodified. -/
def triggerDefault (is_running : Bool) (st : Option SimStateL)
    (bank_id : Option Nat) : Except HttpFailure Unit × Option SimStateL :=
  if !is_running then (.error (.notFound "No active simulation"), st)
  else
    match bank_id with
    | none => (.error (.badRequest "bank_id is required"), st)
    | some 0 => (.error (.badRequest "bank_id is required"), st)
    | some bid =>
        match st with
        | none => (.error (.notFound "No simulation state available"), st)
        | some s =>
            match s.banks.find? (fun b => b.bank_id == bid) with
            | none => (.error (.notFound "Bank not found"), st)
            | some b =>
                if b.is_defaulted then
                  (.error (.badRequest "Bank is already defaulted"), st)
                else (.error .attributeError, st)

/-- C3: `trigger_default` never succeeds — on every input, existing
not-yet-defaulted target banks included, it returns an error and leaves the
simulation state (in particular every `is_defaulted` flag) unchanged, because
the forced-default assignment to the read-only `equity` property raises before
the bank is marked defaulted. -/
theorem C3_trigger_default :
    ∀ (r : Bool) (st : Option SimStateL) (bid : Option Nat),
      (∃ e, (triggerDefault r st bid).1 = Except.error e) ∧
      (triggerDefault r st bid).2 = st := by
  intro r st bid
  cases r with
  | false => exact ⟨⟨_, rfl⟩, rfl⟩
  | true =>
      cases bid with
      | none => exact ⟨⟨_, rfl⟩, rfl⟩
      | some bid =>
          cases bid with
          | zero => exact ⟨⟨_, rfl⟩, rfl⟩
          | succ n =>
              cases st with
              | none => exact ⟨⟨_, rfl⟩, rfl⟩
              | some s =>
                  simp only [triggerDefault, Bool.not_true,
                    Bool.false_eq_true, if_false]
                  cases hf : s.banks.find? (fun b => b.bank_id == n + 1) with
                  | none => exact ⟨⟨_, rfl⟩, rfl⟩
                  | some b =>
                      by_cases hd : b.is_defaulted <;>
                        simp [hd] <;> exact ⟨_, rfl⟩

/-- Cascade handling of one (defaulted id, bank) pair
(simulation_v2.py `_propagate_cascades` 248-258): a solvent bank with positive
exposure to the defaulted id takes the exposure as an `apply_loss`, drops
`loans_given` by the full exposure, removes the loan position, and is
re-checked for default; returns the updated bank and its id if it newly
defaulted. -/
def cascadeStepBank (did : Nat) (b : Bank) : Bank × Option Nat :=
  if b.is_defaulted then (b, none)
  else
    let exposure := alookup b.balance_sheet.loan_positions did
    if 0 < exposure then
      let b1 := b.apply_loss exposure
      let b2 := { b1 with balance_sheet :=
        { b1.balance_sheet with
          loans_given := b1.balance_sheet.loans_given - exposure
          loan_positions := aerase b1.balance_sheet.loan_positions did } }
      let r := b2.check_default
      (r.1, if r.2 then some r.1.bank_id else none)
    else (b, none)

/-- Inner loop of a cascade round: one defaulted id propagated to every bank
in list order. -/
def cascadeProcessId : List Bank → Nat → List Bank × List Nat
  | [], _ => ([], [])
  | b :: rest, did =>
      let r := cascadeStepBank did b
      let q := cascadeProcessId rest did
      (r.1 :: q.1, (match r.2 with | some i => [i] | none => []) ++ q.2)

/-- One cascade round: every id of the step's defaulted set is propagated in
order; the defaulted set itself is only extended after the round. -/
def cascadeRound : List Bank → List Nat → List Bank × List Nat
  | banks, [] => (banks, [])
  | banks, did :: rest =>
      let r := cascadeProcessId banks did
      let q := cascadeRound r.1 rest
      (q.1, r.2 ++ q.2)

/-- The bounded cascade loop (`for _ in range(5)` with early break): returns
the final state, the total cascade count, and the number of rounds executed. -/
def propagateCascadesAux : Nat → SimStateL → SimStateL × Nat × Nat
  | 0, st => (st, 0, 0)
  | fuel + 1, st =>
      let r := cascadeRound st.banks st.defaults_this_step
      if r.2 = [] then ({ st with banks := r.1 }, 0, 1)
      else
        let st2 : SimStateL :=
          { st with
            banks := r.1
            defaults_this_step := st.defaults_this_step ++ r.2
            cascade_depth := st.cascade_depth + 1 }
        let q := propagateCascadesAux fuel st2
        (q.1, r.2.length + q.2.1, q.2.2 + 1)

/-- `_propagate_cascades` (simulation_v2.py 243-263). -/
def propagateCascades (st : SimStateL) : SimStateL × Nat × Nat :=
  propagateCascadesAux 5 st

theorem propagateCascadesAux_rounds_le :
    ∀ (fuel : Nat) (st : SimStateL),
      (propagateCascadesAux fuel st).2.2 ≤ fuel := by
  intro fuel
  induction fuel with
  | zero => intro st; simp [propagateCascadesAux]
  | succ n ih =>
      intro st
      unfold propagateCascadesAux
      by_cases h : (cascadeRound st.banks st.defaults_this_step).2 = []
      · simp [h]
      · simpa [h] using ih _

/-- C6: cascade propagation terminates after at most 5 rounds and stops early
as soon as a round adds no new defaults; within a round each still-solvent
bank with positive exposure to a propagated defaulted id loses exactly that
exposure — cash down by `min(exposure, cash)`, loansGiven down by the full
exposure, the position removed — and is re-checked for default; and the round
applies this per-bank transform to every bank in order. -/
theorem C6_cascade :
    (∀ st : SimStateL, (propagateCascades st).2.2 ≤ 5) ∧
    (∀ (st : SimStateL) (bs : List Bank),
      cascadeRound st.banks st.defaults_this_step = (bs, []) →
      propagateCascades st = ({ st with banks := bs }, 0, 1)) ∧
    (∀ (b : Bank) (did : Nat),
      b.is_defaulted = false →
      0 < alookup b.balance_sheet.loan_positions did →
        (cascadeStepBank did b).1.balance_sheet.cash
          = b.balance_sheet.cash
            - min (alookup b.balance_sheet.loan_positions did)
                b.balance_sheet.cash ∧
        (cascadeStepBank did b).1.balance_sheet.loans_given
          = b.balance_sheet.loans_given
            - alookup b.balance_sheet.loan_positions did ∧
        alookup (cascadeStepBank did b).1.balance_sheet.loan_positions did
          = 0 ∧
        (cascadeStepBank did b).1.is_defaulted
          = (cascadeStepBank did b).1.balance_sheet.is_defaulted) ∧
    (∀ (banks : List Bank) (did : Nat),
      (cascadeProcessId banks did).1
        = banks.map (fun b => (cascadeStepBank did b).1)) := by
  refine ⟨?_, ?_, ?_, ?_⟩
  · intro st; exact propagateCascadesAux_rounds_le 5 st
  · intro st bs h
    simp [propagateCascades, propagateCascadesAux, h]
  · intro b did hnd hexp
    have hsheet :
        ∀ bb : Bank, (bb.check_default).1.balance_sheet = bb.balance_sheet := by
      intro bb
      unfold Bank.check_default
      by_cases h : bb.balance_sheet.is_defaulted && !bb.is_defaulted <;> simp [h]
    have hflag :
        ∀ bb : Bank, bb.is_defaulted = false →
          (bb.check_default).1.is_defaulted = bb.balance_sheet.is_defaulted := by
      intro bb hbb
      unfold Bank.check_default
      by_cases h : bb.balance_sheet.is_defaulted <;> simp [h, hbb]
    simp only [cascadeStepBank, hnd, Bool.false_eq_true, if_false, hexp,
      if_true]
    refine ⟨?_, ?_, ?_, ?_⟩
    · rw [hsheet]; simp [Bank.apply_loss]
    · rw [hsheet]; simp [Bank.apply_loss]
    · rw [hsheet]; exact alookup_aerase _ _
    · rw [hsheet]; exact hflag _ hnd
  · intro banks did
    induction banks with
    | nil => rfl
    | cons b rest ih => simp [cascadeProcessId, ih]

/-- Solvent lender with a position of 10 on defaulted bank 1 but only 3 cash. -/
def c6Bank : Bank :=
  { bank_id := 5
    balance_sheet := { cash := 3, investments := 0, loans_given := 10
                       borrowed := 0, investment_positions := []
                       loan_positions := [(1, 10)] } }

/-- Kernel state whose step produced no initial defaults. -/
def c6St : SimStateL := { time_step := 0, banks := [c6Bank] }

/-- C6 witness: the cascade loop on a state with an empty defaulted set stops
after one round with cascade count 0, and the per-bank transform applied to a
lender with exposure 10 and cash 3 leaves it with cash 0. -/
theorem C6_cascade_witness :
    propagateCascades c6St = (c6St, 0, 1) ∧
    (cascadeStepBank 1 c6Bank).1.balance_sheet.cash = 0 := by
  constructor
  · exact C6_cascade.2.1 c6St c6St.banks rfl
  · have h := C6_cascade.2.2.1 c6Bank 1 rfl
      (by norm_num [c6Bank, alookup, List.find?])
    rw [h.1]
    norm_num [c6Bank, alookup, List.find?]

/-- Server-sent events emitted by the per-step kernel
(interactive_simulation.py); payloads keep the fields the claims mention, and
the Python 2-decimal display rounding of payload numbers is dropped. -/
inductive Event
  | transactionEv (step from_bank : Nat) (market_id : String) (amount : ℚ)
  | marketGainEv (step bank_id : Nat) (market_id : String)
      (divested_amount market_return realized_gain : ℚ)
  | interestPayment (step from_bank to_bank : Nat) (amount loan_balance : ℚ)
  | loanRepayment (step from_bank to_bank : Nat) (amount remaining_balance : ℚ)
  | defaultEvent (step bank_id : Nat) (equity : ℚ)
  | cascadeEvent (step : Nat) (initial_defaults : List Nat) (cascade_count : Nat)
  | marketMovement (step : Nat) (market_id : String)
      (old_price new_price change_pct : ℚ)
  | stepEndEvent (step total_defaults : Nat) (total_equity : ℚ)
deriving Repr, DecidableEq

/-- Placeholder event used as the `getD` default when indexing traces. -/
def dummyEvent : Event := .stepEndEvent 0 0 0

/-- One (lender, borrower, loan) entry of the per-step loan pass
(interactive_simulation.py 495-536): the borrower pays 5% interest when its
cash suffices, then repays `min(10% of principal, 30% of its current cash)`,
which is subtracted from its `borrowed` without any clamp at zero. -/
def processLoanEntry (t li : Nat) (banks : List Bank) (entry : Nat × ℚ) :
    List Bank × List Event :=
  let bid := entry.1
  let loan_amount := entry.2
  if loan_amount ≤ 0 then (banks, [])
  else
    match findBank banks bid with
    | none => (banks, [])
    | some borrower0 =>
        if borrower0.is_defaulted then (banks, [])
        else
          let interest := loan_amount * (5/100)
          let p1 :=
            if interest ≤ borrower0.balance_sheet.cash then
              (updateBank
                (updateBank banks bid (fun b =>
                  { b with balance_sheet :=
                    { b.balance_sheet with
                      cash := b.balance_sheet.cash - interest } }))
                li (fun b =>
                  { b with balance_sheet :=
                    { b.balance_sheet with
                      cash := b.balance_sheet.cash + interest } }),
               [Event.interestPayment t bid li interest loan_amount])
            else (banks, ([] : List Event))
          let borrower1 := (findBank p1.1 bid).getD borrower0
          let repayment :=
            min (loan_amount * (1/10)) (borrower1.balance_sheet.cash * (3/10))
          if 0 < repayment then
            let banks2 := updateBank p1.1 bid (fun b =>
              { b with balance_sheet :=
                { b.balance_sheet with
                  cash := b.balance_sheet.cash - repayment
                  borrowed := b.balance_sheet.borrowed - repayment } })
            let banks3 := updateBank banks2 li (fun b =>
              { b with balance_sheet :=
                { b.balance_sheet with
                  cash := b.balance_sheet.cash + repayment
                  loans_given := b.balance_sheet.loans_given - repayment
                  loan_positions :=
                    aset b.balance_sheet.loan_positions bid
                      (alookup b.balance_sheet.loan_positions bid - repayment) } })
            (banks3,
             p1.2 ++ [Event.loanRepayment t bid li repayment
               (loan_amount - repayment)])
          else (p1.1, p1.2)

/-- Inner loop over the snapshot of a lender's `loan_positions.items()`. -/
def entryLoop (t li : Nat) : List Bank → List (Nat × ℚ) →
    List Bank × List Event
  | banks, [] => (banks, [])
  | banks, e :: rest =>
      let p := processLoanEntry t li banks e
      let q := entryLoop t li p.1 rest
      (q.1, p.2 ++ q.2)

/-- One lender of the loan pass: skipped when defaulted; its positions are
snapshotted on entry. -/
def processLender (t : Nat) (banks : List Bank) (li : Nat) :
    List Bank × List Event :=
  match findBank banks li with
  | none => (banks, [])
  | some lender =>
      if lender.is_defaulted then (banks, [])
      else entryLoop t li banks lender.balance_sheet.loan_positions

/-- Outer loop of the loan pass over the session's bank ids in list order. -/
def lenderLoop (t : Nat) : List Bank → List Nat → List Bank × List Event
  | banks, [] => (banks, [])
  | banks, li :: rest =>
      let p := processLender t banks li
      let q := lenderLoop t p.1 rest
      (q.1, p.2 ++ q.2)

/-- The per-step loan interest/repayment pass
(interactive_simulation.py 490-536). -/
def processLoanPayments (t : Nat) (banks : List Bank) :
    List Bank × List Event :=
  lenderLoop t banks (banks.map (fun b => b.bank_id))

/-- Lender holding a mid-simulation (one-sidedly recorded) loan of 10 on
bank 1. -/
def c2Lender : Bank :=
  { bank_id := 0
    balance_sheet := { cash := 100, investments := 0, loans_given := 10
                       borrowed := 0, investment_positions := []
                       loan_positions := [(1, 10)] } }

/-- Borrower with ample cash but `borrowed = 0`, as produced by a
mid-simulation INCREASE_LENDING (which records the loan on the lender only). -/
def c2Borrower : Bank :=
  { bank_id := 1
    balance_sheet := { cash := 100, investments := 0, loans_given := 0
                       borrowed := 0, investment_positions := []
                       loan_positions := [] } }

/-- C2: the loan-repayment pass drives the borrower's `borrowed` to −1 < 0 on
a state where every balance-sheet scalar starts non-negative: the repayment
`min(10%·10, 30%·99.5) = 1` is subtracted from `borrowed = 0` with no clamp,
and no later phase of the step writes `borrowed`, so the value survives to
`step_end`. -/
theorem C2_negative_borrowed :
    ((processLoanPayments 0 [c2Lender, c2Borrower]).1.getD 1
        dummyBank).balance_sheet.borrowed = -1 ∧
    ¬ (0 ≤ ((processLoanPayments 0 [c2Lender, c2Borrower]).1.getD 1
        dummyBank).balance_sheet.borrowed) := by
  norm_num [processLoanPayments, lenderLoop, processLender, entryLoop,
    processLoanEntry, findBank, updateBank, alookup, aset, c2Lender,
    c2Borrower, dummyBank, List.find?, beq_eq_decide]

/-- Deterministic stand-in for Python's RNG: a stream of unit-interval draws
consumed in call order (an empty stream yields 0). -/
structure Rng where
  draws : List ℚ
deriving Repr, DecidableEq

def Rng.next (r : Rng) : ℚ × Rng :=
  match r.draws with
  | [] => (0, r)
  | d :: rest => (d, ⟨rest⟩)

/-- `random.uniform(lo, hi)` driven by the next unit draw `u`:
`lo + (hi − lo)·u`. -/
def uniformDraw (lo hi : ℚ) (r : Rng) : ℚ × Rng :=
  let p := r.next
  (lo + (hi - lo) * p.1, p.2)

def findMarket (mkts : List Market) (mid : String) : Option Market :=
  mkts.find? (fun m => m.market_id == mid)

/-- Threaded state of the automatic profit-taking pass: the bank being
processed, the step's market-flow accumulator, the RNG, and the events
emitted so far. -/
structure PTStep where
  bank : Bank
  flows : List (String × ℚ)
  rng : Rng
  events : List Event
deriving Repr

/-- Sell-fraction selection of the profit-taking pass
(interactive_simulation.py 411-428): threshold ladder on the market return,
earlier profit-taking for conservative banks, and the −10% stop-loss that
takes the max with a fresh draw; uniform draws are consumed only on the
branch taken. -/
def sellFraction (ret position risk : ℚ) (r : Rng) : ℚ × Rng :=
  let s1 :=
    if 3/10 < ret then uniformDraw (1/2) (7/10) r
    else if 1/5 < ret then uniformDraw (2/5) (3/5) r
    else if 1/10 < ret then uniformDraw (3/10) (1/2) r
    else if 1/20 < ret ∧ risk < 2/5 then uniformDraw (3/20) (3/10) r
    else (0, r)
  if ret < -(1/10) ∧ 5 < position then
    let d := uniformDraw (2/5) (7/10) s1.2
    (max s1.1 d.1, d.2)
  else s1

/-- One position of the profit-taking pass
(interactive_simulation.py 404-474): when a sale triggers, the sold amount is
`max(2, min(position·fraction, position))`, the bank's cash gains principal
plus `sold·return`, the position and `investments` shrink by the sold amount,
and the sale is subtracted from this step's flow accumulator. -/
def profitTakePosition (t : Nat) (mkts : List Market) (entry : String × ℚ)
    (s : PTStep) : PTStep :=
  let mid := entry.1
  let position := entry.2
  if position < 2 then s
  else
    match findMarket mkts mid with
    | none => s
    | some mkt =>
        let ret := mkt.get_return
        let f := sellFraction ret position s.bank.risk_appetite s.rng
        if 0 < f.1 then
          let sell_amount := max 2 (min (position * f.1) position)
          let realized_gain := sell_amount * ret
          let b := s.bank
          let b' := { b with balance_sheet :=
            { b.balance_sheet with
              cash := b.balance_sheet.cash + sell_amount + realized_gain
              investments := b.balance_sheet.investments - sell_amount
              investment_positions :=
                aset b.balance_sheet.investment_positions mid
                  (alookup b.balance_sheet.investment_positions mid
                    - sell_amount) } }
          let flows' := aset s.flows mid (alookup s.flows mid - sell_amount)
          let evs :=
            [Event.transactionEv t b.bank_id mid sell_amount]
              ++ (if 1/2 < |realized_gain| then
                    [Event.marketGainEv t b.bank_id mid sell_amount ret
                      realized_gain]
                  else [])
          { bank := b', flows := flows', rng := f.2, events := s.events ++ evs }
        else { s with rng := f.2 }

/-- Inner loop over the snapshot of one bank's positions. -/
def profitEntriesLoop (t : Nat) (mkts : List Market) :
    List (String × ℚ) → PTStep → PTStep
  | [], s => s
  | e :: rest, s => profitEntriesLoop t mkts rest (profitTakePosition t mkts e s)

/-- Outer loop of the profit-taking pass: banks in list order, skipping
defaulted banks and banks with `investments < 5`. -/
def profitBankLoop (t : Nat) (mkts : List Market) :
    List Bank → List (String × ℚ) → Rng →
      List Bank × List (String × ℚ) × Rng × List Event
  | [], flows, r => ([], flows, r, [])
  | b :: rest, flows, r =>
      let s :=
        if b.is_defaulted || decide (b.balance_sheet.investments < 5) then
          PTStep.mk b flows r []
        else
          profitEntriesLoop t mkts b.balance_sheet.investment_positions
            (PTStep.mk b flows r [])
      let q := profitBankLoop t mkts rest s.flows s.rng
      (s.bank :: q.1, q.2.1, q.2.2.1, s.events ++ q.2.2.2)

/-- The automatic profit-taking pass (interactive_simulation.py 397-474),
operating on the same per-step flow accumulator that phase 4 filled. -/
def profitTakingPass (t : Nat) (banks : List Bank) (mkts : List Market)
    (flows : List (String × ℚ)) (r : Rng) :
    List Bank × List (String × ℚ) × Rng × List Event :=
  profitBankLoop t mkts banks flows r

/-- Total holding of market `mid` across a bank list. -/
def positionsTotal (banks : List Bank) (mid : String) : ℚ :=
  (banks.map (fun b => alookup b.balance_sheet.investment_positions mid)).sum

/-- The fresh per-step flow accumulator
(interactive_simulation.py 170: `{mid: 0.0 for mid in market_ids}`). -/
def stepInitFlows (mids : List String) : List (String × ℚ) :=
  mids.map (fun mid => (mid, 0))

theorem alookup_aset_eq {α : Type} [BEq α] [LawfulBEq α] [DecidableEq α]
    (m : List (α × ℚ)) (k x : α) (v : ℚ) :
    alookup (aset m k v) x = if x = k then v else alookup m x := by
  induction m with
  | nil =>
      by_cases h : x = k
      · simp [aset, alookup, List.find?, h]
      · have hb : (k == x) = false := beq_false_of_ne (Ne.symm h)
        simp [aset, alookup, List.find?, h, hb]
  | cons p rest ih =>
      by_cases ha : p.1 = k
      · have hb : (p.1 == k) = true := beq_iff_eq.mpr ha
        by_cases h : x = k
        · simp [aset, alookup, List.find?, hb, h]
        · have hb2 : (k == x) = false := beq_false_of_ne (Ne.symm h)
          have hb3 : (p.1 == x) = false := by
            rw [ha]; exact hb2
          simp [aset, alookup, List.find?, hb, hb2, hb3, h]
      · have hb : (p.1 == k) = false := beq_false_of_ne ha
        by_cases hpx : p.1 = x
        · have hb2 : (p.1 == x) = true := beq_iff_eq.mpr hpx
          have h : ¬ x = k := by rw [← hpx]; exact ha
          simp [aset, alookup, List.find?, hb, hb2, h]
        · have hb2 : (p.1 == x) = false := beq_false_of_ne hpx
          simpa [aset, alookup, List.find?, hb, hb2] using ih

theorem profitTakePosition_delta (t : Nat) (mkts : List Market)
    (entry : String × ℚ) (s : PTStep) (mid : String) :
    alookup (profitTakePosition t mkts entry s).flows mid
        - alookup s.flows mid
      = alookup
          (profitTakePosition t mkts entry s).bank.balance_sheet.investment_positions
          mid
        - alookup s.bank.balance_sheet.investment_positions mid := by
  unfold profitTakePosition
  by_cases h1 : entry.2 < 2
  · simp [h1]
  · simp only [h1, if_false]
    cases hm : findMarket mkts entry.1 with
    | none => simp
    | some mkt =>
        by_cases h2 :
            0 < (sellFraction mkt.get_return entry.2 s.bank.risk_appetite
              s.rng).1
        · simp only [h2, if_true]
          rw [alookup_aset_eq, alookup_aset_eq]
          by_cases hx : mid = entry.1 <;> simp [hx] <;> ring
        · simp [h2]

theorem profitEntriesLoop_delta (t : Nat) (mkts : List Market) :
    ∀ (entries : List (String × ℚ)) (s : PTStep) (mid : String),
      alookup (profitEntriesLoop t mkts entries s).flows mid
          - alookup s.flows mid
        = alookup
            (profitEntriesLoop t mkts entries s).bank.balance_sheet.investment_positions
            mid
          - alookup s.bank.balance_sheet.investment_positions mid := by
  intro entries
  induction entries with
  | nil => intro s mid; simp [profitEntriesLoop]
  | cons e rest ih =>
      intro s mid
      have h1 := profitTakePosition_delta t mkts e s mid
      have h2 := ih (profitTakePosition t mkts e s) mid
      simp only [profitEntriesLoop] at h2 ⊢
      linarith

theorem profitBankLoop_delta (t : Nat) (mkts : List Market) :
    ∀ (banks : List Bank) (flows : List (String × ℚ)) (r : Rng) (mid : String),
      alookup (profitBankLoop t mkts banks flows r).2.1 mid
          - alookup flows mid
        = positionsTotal (profitBankLoop t mkts banks flows r).1 mid
          - positionsTotal banks mid := by
  intro banks
  induction banks with
  | nil => intro flows r mid; simp [profitBankLoop, positionsTotal]
  | cons b rest ih =>
      intro flows r mid
      by_cases hg : b.is_defaulted || decide (b.balance_sheet.investments < 5)
      · have hq := ih flows r mid
        simp only [profitBankLoop, hg, if_true, positionsTotal, List.map_cons,
          List.sum_cons] at hq ⊢
        linarith
      · have hg' : (b.is_defaulted || decide (b.balance_sheet.investments < 5))
            = false := by simpa using hg
        have hd := profitEntriesLoop_delta t mkts
          b.balance_sheet.investment_positions (PTStep.mk b flows r []) mid
        have hq := ih
          (profitEntriesLoop t mkts b.balance_sheet.investment_positions
            (PTStep.mk b flows r [])).flows
          (profitEntriesLoop t mkts b.balance_sheet.investment_positions
            (PTStep.mk b flows r [])).rng mid
        simp only [profitBankLoop, hg', Bool.false_eq_true, if_false,
          positionsTotal, List.map_cons, List.sum_cons] at hq hd ⊢
        linarith

/-- C5 amended: the sales of the automatic profit-taking pass of step t are
included in the very flow accumulator applied at step t — after the pass, the
accumulator of every market differs from its pre-pass value by exactly the
total position reduction the pass performed — and every step starts from a
zero accumulator, so nothing is deferred to step t+1. -/
theorem C5_amended :
    (∀ (t : Nat) (banks : List Bank) (mkts : List Market)
        (flows : List (String × ℚ)) (r : Rng) (mid : String),
      alookup (profitTakingPass t banks mkts flows r).2.1 mid
        = alookup flows mid
          + (positionsTotal (profitTakingPass t banks mkts flows r).1 mid
              - positionsTotal banks mid)) ∧
    (∀ (mids : List String) (mid : String),
      alookup (stepInitFlows mids) mid = 0) := by
  constructor
  · intro t banks mkts flows r mid
    have h := profitBankLoop_delta t mkts banks flows r mid
    simp only [profitTakingPass] at h ⊢
    linarith
  · intro mids mid
    induction mids with
    | nil => rfl
    | cons m rest ih =>
        by_cases h : m = mid
        · simp [stepInitFlows, alookup, List.find?, h]
        · have hb : (m == mid) = false := beq_false_of_ne h
          simpa [stepInitFlows, alookup, List.find?, hb] using ih

/-- A bank holding 10 of market `M` (and nothing else). -/
def c5Bank : Bank :=
  { bank_id := 0
    balance_sheet := { cash := 10, investments := 10, loans_given := 0
                       borrowed := 0, investment_positions := [("M", 10)]
                       loan_positions := [] }
    risk_appetite := 1/2 }

/-- Market `M` at a 20% return (price 120 from 100). -/
def c5Market : Market :=
  { market_id := "M", initial_price := 100, price := 120
    price_history := [100, 120] }

/-- C5 counterexample: with no phase-4 flows (accumulator at 0), the automatic
profit-taking pass of step t sells 4 of `M` (20% return, draw 1/2 ⇒ fraction
0.4) and leaves −4 in the very accumulator that step t's market update
applies, whereas the claim says step t's price update would see 0 and the −4
would feed step t+1. -/
theorem C5_counterexample :
    alookup (profitTakingPass 0 [c5Bank] [c5Market] [("M", 0)] ⟨[1/2]⟩).2.1 "M"
      = -4 ∧
    ¬ (alookup
        (profitTakingPass 0 [c5Bank] [c5Market] [("M", 0)] ⟨[1/2]⟩).2.1 "M"
      = 0) := by
  norm_num [profitTakingPass, profitBankLoop, profitEntriesLoop,
    profitTakePosition, sellFraction, uniformDraw, Rng.next, findMarket,
    Market.get_return, alookup, aset, c5Bank, c5Market, List.find?,
    beq_eq_decide]

/-- The per-step default check (interactive_simulation.py 538-551): every
bank runs `check_default` in list order; newly defaulted ids and one `default`
event per new default are collected. -/
def defaultCheckPass (t : Nat) : List Bank → List Bank × List Nat × List Event
  | [] => ([], [], [])
  | b :: rest =>
      let r := b.check_default
      let q := defaultCheckPass t rest
      (r.1 :: q.1,
       (if r.2 then [r.1.bank_id] else []) ++ q.2.1,
       (if r.2 then [Event.defaultEvent t r.1.bank_id r.1.balance_sheet.equity]
        else []) ++ q.2.2)

/-- `_count_neighbor_defaults` (simulation_v2.py 223-229). -/
def countNeighborDefaults (b : Bank) (banks : List Bank) : Nat :=
  (b.balance_sheet.loan_positions.map (fun e =>
    (banks.filter (fun x => x.bank_id == e.1 && x.is_defaulted)).length)).sum

/-- The dynamic risk update loop (interactive_simulation.py 565-587); it
mutates only `risk_appetite`, which the neighbour-default count never reads,
so mapping over the original list is exact. -/
def riskUpdatePass (banks : List Bank) : List Bank :=
  banks.map (fun b =>
    if b.is_defaulted then b
    else { b with
      risk_appetite := updateRiskAppetite b (countNeighborDefaults b banks) })

/-- The market-flow application loop (interactive_simulation.py 589-612):
each market gets `apply_flow` on this step's accumulated net flow — always,
including zero — and a `market_movement` event when the price moved by more
than 2%. -/
def marketUpdatePass (t : Nat) : List Market → List (String × ℚ) → Rng →
    List Market × Rng × List Event
  | [], _, r => ([], r, [])
  | m :: rest, flows, r =>
      let net := alookup flows m.market_id
      let d := uniformDraw (-m.volatility) m.volatility r
      let m' := m.apply_flow net d.1
      let evs :=
        if 2 ≤ m'.price_history.length then
          let old_price := m'.price_history.reverse.getD 1 0
          let pct := (m'.price - old_price) / old_price * 100
          if 2 < |pct| then
            [Event.marketMovement t m.market_id old_price m'.price pct]
          else []
        else []
      let q := marketUpdatePass t rest flows d.2
      (m' :: q.1, q.2.1, evs ++ q.2.2)

/-- The cascade section of the step (interactive_simulation.py 553-563):
cascades run only when the default check produced new ids; a single `cascade`
event is emitted when the cascade count is positive. -/
def stepCascade (t : Nat) (banks : List Bank) (ids : List Nat) :
    List Bank × List Event :=
  if ids = [] then (banks, [])
  else
    let p := propagateCascades
      { time_step := t, banks := banks, defaults_this_step := ids
        cascade_depth := 0 }
    (p.1.banks, if 0 < p.2.1 then [Event.cascadeEvent t ids p.2.1] else [])

def totalDefaults (banks : List Bank) : Nat :=
  (banks.filter (fun b => b.is_defaulted)).length

def totalEquity (banks : List Bank) : ℚ :=
  ((banks.filter (fun b => !b.is_defaulted)).map
    (fun b => b.balance_sheet.equity)).sum

/-- The tail of one kernel step, from the loan pass onward, exactly in source
order (interactive_simulation.py 490-654): loan interest/repayments, then the
default check, then cascades, then the risk update (event-free), then the
market-flow application, then `step_end`. The earlier phases (actions and
profit-taking) emit only transaction / market_gain / profit_booking events,
none of which are interest, repayment, default or market-movement events. -/
def stepTail (t : Nat) (banks : List Bank) (mkts : List Market)
    (flows : List (String × ℚ)) (r : Rng) :
    (List Bank × List Market) × List Event :=
  let pay := processLoanPayments t banks
  let chk := defaultCheckPass t pay.1
  let cas := stepCascade t chk.1 chk.2.1
  let banks4 := riskUpdatePass cas.1
  let mu := marketUpdatePass t mkts flows r
  ((banks4, mu.1),
   pay.2 ++ (chk.2.2 ++ (cas.2 ++ (mu.2.2 ++
     [Event.stepEndEvent t (totalDefaults banks4) (totalEquity banks4)]))))

def isLoanAccrualEvent : Event → Bool
  | .interestPayment _ _ _ _ _ => true
  | .loanRepayment _ _ _ _ _ => true
  | _ => false

def isDefaultEvent : Event → Bool
  | .defaultEvent _ _ _ => true
  | _ => false

def isMarketMovementEvent : Event → Bool
  | .marketMovement _ _ _ _ _ => true
  | _ => false

/-- Within one trace, every `p`-event occurs strictly before every `q`-event. -/
def eventsPrecede (p q : Event → Bool) (evs : List Event) : Prop :=
  ∀ i, i < evs.length → ∀ j, j < evs.length →
    p (evs.getD i dummyEvent) = true → q (evs.getD j dummyEvent) = true →
      i < j

theorem processLoanEntry_evs (t li : Nat) (banks : List Bank)
    (en : Nat × ℚ) :
    ∀ e ∈ (processLoanEntry t li banks en).2, isLoanAccrualEvent e = true := by
  intro e he
  unfold processLoanEntry at he
  simp only [List.mem_append, List.mem_singleton, List.not_mem_nil,
    or_false, false_or] at he
  repeat' split at he
  all_goals
    simp only [List.mem_append, List.mem_singleton, List.not_mem_nil,
      or_false, false_or] at he
  all_goals
    first
      | exact he.elim
      | (rcases he with rfl | rfl <;> rfl)
      | (rcases he with rfl; rfl)

theorem entryLoop_evs (t li : Nat) :
    ∀ (entries : List (Nat × ℚ)) (banks : List Bank),
      ∀ e ∈ (entryLoop t li banks entries).2, isLoanAccrualEvent e = true := by
  intro entries
  induction entries with
  | nil => intro banks e he; simp [entryLoop] at he
  | cons en rest ih =>
      intro banks e he
      simp only [entryLoop, List.mem_append] at he
      rcases he with h | h
      · exact processLoanEntry_evs t li banks en e h
      · exact ih _ e h

theorem processLender_evs (t : Nat) (banks : List Bank) (li : Nat) :
    ∀ e ∈ (processLender t banks li).2, isLoanAccrualEvent e = true := by
  unfold processLender
  cases findBank banks li with
  | none => intro e he; simp at he
  | some lender =>
      by_cases hd : lender.is_defaulted
      · intro e he; simp [hd] at he
      · intro e he
        simp only [hd, Bool.false_eq_true, if_false] at he
        exact entryLoop_evs t li _ banks e he

theorem lenderLoop_evs (t : Nat) :
    ∀ (ids : List Nat) (banks : List Bank),
      ∀ e ∈ (lenderLoop t banks ids).2, isLoanAccrualEvent e = true := by
  intro ids
  induction ids with
  | nil => intro banks e he; simp [lenderLoop] at he
  | cons li rest ih =>
      intro banks e he
      simp only [lenderLoop, List.mem_append] at he
      rcases he with h | h
      · exact processLender_evs t banks li e h
      · exact ih _ e h

theorem processLoanPayments_evs (t : Nat) (banks : List Bank) :
    ∀ e ∈ (processLoanPayments t banks).2, isLoanAccrualEvent e = true :=
  lenderLoop_evs t _ banks

theorem defaultCheckPass_evs (t : Nat) :
    ∀ banks : List Bank,
      ∀ e ∈ (defaultCheckPass t banks).2.2, isDefaultEvent e = true := by
  intro banks
  induction banks with
  | nil => intro e he; simp [defaultCheckPass] at he
  | cons b rest ih =>
      intro e he
      simp only [defaultCheckPass, List.mem_append] at he
      rcases he with h | h
      · by_cases hc : b.check_default.2 <;> simp [hc] at h
        subst h; rfl
      · exact ih e h

theorem stepCascade_evs (t : Nat) (banks : List Bank) (ids : List Nat) :
    ∀ e ∈ (stepCascade t banks ids).2,
      isLoanAccrualEvent e = false ∧ isDefaultEvent e = false ∧
        isMarketMovementEvent e = false := by
  intro e he
  unfold stepCascade at he
  split at he
  · simp at he
  · simp at he
    rcases he with ⟨-, rfl⟩
    exact ⟨rfl, rfl, rfl⟩

theorem marketUpdatePass_evs (t : Nat) :
    ∀ (mkts : List Market) (flows : List (String × ℚ)) (r : Rng),
      ∀ e ∈ (marketUpdatePass t mkts flows r).2.2,
        isMarketMovementEvent e = true := by
  intro mkts
  induction mkts with
  | nil => intro flows r e he; simp [marketUpdatePass] at he
  | cons m rest ih =>
      intro flows r e he
      simp only [marketUpdatePass, List.mem_append] at he
      rcases he with h | h
      · split at h
        · simp at h
          rcases h with ⟨-, rfl⟩
          rfl
        · simp at h
      · exact ih flows _ e h

theorem default_not_accrual (e : Event) (h : isDefaultEvent e = true) :
    isLoanAccrualEvent e = false := by
  cases e <;> simp_all [isDefaultEvent, isLoanAccrualEvent]

theorem accrual_not_default (e : Event) (h : isLoanAccrualEvent e = true) :
    isDefaultEvent e = false := by
  cases e <;> simp_all [isDefaultEvent, isLoanAccrualEvent]

theorem movement_not_accrual (e : Event) (h : isMarketMovementEvent e = true) :
    isLoanAccrualEvent e = false := by
  cases e <;> simp_all [isMarketMovementEvent, isLoanAccrualEvent]

theorem movement_not_default (e : Event) (h : isMarketMovementEvent e = true) :
    isDefaultEvent e = false := by
  cases e <;> simp_all [isMarketMovementEvent, isDefaultEvent]

theorem accrual_not_movement (e : Event) (h : isLoanAccrualEvent e = true) :
    isMarketMovementEvent e = false := by
  cases e <;> simp_all [isMarketMovementEvent, isLoanAccrualEvent]

theorem default_not_movement (e : Event) (h : isDefaultEvent e = true) :
    isMarketMovementEvent e = false := by
  cases e <;> simp_all [isMarketMovementEvent, isDefaultEvent]

theorem eventsPrecede_append (p q : Event → Bool) (l1 l2 : List Event)
    (h1 : ∀ e ∈ l2, p e = false) (h2 : ∀ e ∈ l1, q e = false) :
    eventsPrecede p q (l1 ++ l2) := by
  intro i hi j hj hp hq
  have hlen : (l1 ++ l2).length = l1.length + l2.length := by
    simp [List.length_append]
  have hiL : i < l1.length := by
    by_contra hcon
    push_neg at hcon
    have hlt : i - l1.length < l2.length := by omega
    rw [List.getD_append_right _ _ _ _ hcon,
      List.getD_eq_getElem _ _ hlt] at hp
    exact absurd hp (by simp [h1 _ (List.getElem_mem hlt)])
  have hjR : l1.length ≤ j := by
    by_contra hcon
    push_neg at hcon
    rw [List.getD_append _ _ _ _ hcon, List.getD_eq_getElem _ _ hcon] at hq
    exact absurd hq (by simp [h2 _ (List.getElem_mem hcon)])
  omega

theorem stepTail_trace_shape (t : Nat) (banks : List Bank)
    (mkts : List Market) (flows : List (String × ℚ)) (r : Rng) :
    ∃ se : Event,
      (stepTail t banks mkts flows r).2
        = (processLoanPayments t banks).2
          ++ ((defaultCheckPass t (processLoanPayments t banks).1).2.2
          ++ ((stepCascade t
                (defaultCheckPass t (processLoanPayments t banks).1).1
                (defaultCheckPass t (processLoanPayments t banks).1).2.1).2
          ++ ((marketUpdatePass t mkts flows r).2.2 ++ [se]))) ∧
      isLoanAccrualEvent se = false ∧ isDefaultEvent se = false ∧
        isMarketMovementEvent se = false :=
  ⟨_, rfl, rfl, rfl, rfl⟩

/-- C4 amended: in the code's step order the loan accruals run before the
contagion check, which runs before the market price update — so in any step's
event stream every interest_payment and loan_repayment event precedes every
default event, and every default event precedes every market_movement
event. -/
theorem C4_amended (t : Nat) (banks : List Bank) (mkts : List Market)
    (flows : List (String × ℚ)) (r : Rng) :
    eventsPrecede isLoanAccrualEvent isDefaultEvent
      (stepTail t banks mkts flows r).2 ∧
    eventsPrecede isDefaultEvent isMarketMovementEvent
      (stepTail t banks mkts flows r).2 := by
  obtain ⟨se, htr, hse1, hse2, hse3⟩ :=
    stepTail_trace_shape t banks mkts flows r
  rw [htr]
  constructor
  · apply eventsPrecede_append
    · intro e he
      simp only [List.mem_append, List.mem_singleton] at he
      rcases he with h | h | h | rfl
      · exact default_not_accrual e (defaultCheckPass_evs t _ e h)
      · exact (stepCascade_evs t _ _ e h).1
      · exact movement_not_accrual e (marketUpdatePass_evs t mkts flows r e h)
      · exact hse1
    · intro e he
      exact accrual_not_default e (processLoanPayments_evs t banks e he)
  · have hassoc :
        (processLoanPayments t banks).2
          ++ ((defaultCheckPass t (processLoanPayments t banks).1).2.2
          ++ ((stepCascade t
                (defaultCheckPass t (processLoanPayments t banks).1).1
                (defaultCheckPass t (processLoanPayments t banks).1).2.1).2
          ++ ((marketUpdatePass t mkts flows r).2.2 ++ [se])))
        = ((processLoanPayments t banks).2
            ++ ((defaultCheckPass t (processLoanPayments t banks).1).2.2
            ++ (stepCascade t
                (defaultCheckPass t (processLoanPayments t banks).1).1
                (defaultCheckPass t (processLoanPayments t banks).1).2.1).2))
          ++ ((marketUpdatePass t mkts flows r).2.2 ++ [se]) := by
      simp [List.append_assoc]
    rw [hassoc]
    apply eventsPrecede_append
    · intro e he
      simp only [List.mem_append, List.mem_singleton] at he
      rcases he with h | rfl
      · exact movement_not_default e (marketUpdatePass_evs t mkts flows r e h)
      · exact hse2
    · intro e he
      simp only [List.mem_append] at he
      rcases he with h | h | h
      · exact accrual_not_movement e (processLoanPayments_evs t banks e h)
      · exact default_not_movement e (defaultCheckPass_evs t _ e h)
      · exact (stepCascade_evs t _ _ e h).2.2

/-- Lender bank for the C4 trace: a loan of 10 on bank 1. -/
def c4LenderA : Bank :=
  { bank_id := 0
    balance_sheet := { cash := 100, investments := 0, loans_given := 10
                       borrowed := 0, investment_positions := []
                       loan_positions := [(1, 10)] } }

/-- Borrower bank for the C4 trace. -/
def c4BorrowerB : Bank :=
  { bank_id := 1
    balance_sheet := { cash := 100, investments := 0, loans_given := 0
                       borrowed := 50, investment_positions := []
                       loan_positions := [] } }

/-- A bank with negative equity that the step's default check will catch. -/
def c4InsolventC : Bank :=
  { bank_id := 2
    balance_sheet := { cash := 5, investments := 0, loans_given := 0
                       borrowed := 10, investment_positions := []
                       loan_positions := [] } }

def c4Banks : List Bank := [c4LenderA, c4BorrowerB, c4InsolventC]

/-- The event trace of the step tail on the concrete three-bank state, with no
markets and no pending flows. -/
def c4Trace : List Event := (stepTail 0 c4Banks [] [] ⟨[]⟩).2

theorem c4Trace_eq :
    c4Trace = [Event.interestPayment 0 1 0 (1/2) 10,
               Event.loanRepayment 0 1 0 1 9,
               Event.defaultEvent 0 2 (-5),
               Event.stepEndEvent 0 1 160] := by
  norm_num [c4Trace, stepTail, processLoanPayments, lenderLoop, processLender,
    entryLoop, processLoanEntry, findBank, updateBank, alookup, aset,
    c4LenderA, c4BorrowerB, c4InsolventC, c4Banks, defaultCheckPass,
    Bank.check_default, BalanceSheet.is_defaulted, BalanceSheet.equity,
    BalanceSheet.total_assets, BalanceSheet.total_liabilities, stepCascade,
    propagateCascades, propagateCascadesAux, cascadeRound, cascadeProcessId,
    cascadeStepBank, Bank.apply_loss, aerase, riskUpdatePass,
    marketUpdatePass, totalDefaults, totalEquity, List.find?, List.filter,
    beq_eq_decide]

/-- C4 counterexample: in the concrete step trace, the interest_payment and
loan_repayment events (indices 0 and 1) come before the default event
(index 2), refuting the claim that every default event precedes every
interest_payment and loan_repayment event of the step. -/
theorem C4_counterexample :
    c4Trace = [Event.interestPayment 0 1 0 (1/2) 10,
               Event.loanRepayment 0 1 0 1 9,
               Event.defaultEvent 0 2 (-5),
               Event.stepEndEvent 0 1 160] ∧
    ¬ eventsPrecede isDefaultEvent isLoanAccrualEvent c4Trace := by
  refine ⟨c4Trace_eq, ?_⟩
  intro h
  have h02 := h 2 (by rw [c4Trace_eq]; norm_num) 0 (by rw [c4Trace_eq]; norm_num)
    (by rw [c4Trace_eq]; rfl) (by rw [c4Trace_eq]; rfl)
  omega

/-- C4 witness: the amended ordering theorem applied to the concrete trace at
the interest_payment event (index 0) and the default event (index 2). -/
theorem C4_amended_witness :
    isLoanAccrualEvent (c4Trace.getD 0 dummyEvent) = true ∧
    isDefaultEvent (c4Trace.getD 2 dummyEvent) = true ∧
    (0 : ℕ) < 2 := by
  refine ⟨by rw [c4Trace_eq]; rfl, by rw [c4Trace_eq]; rfl, ?_⟩
  exact (C4_amended 0 c4Banks [] [] ⟨[]⟩).1 0
    (by rw [show (stepTail 0 c4Banks [] [] ⟨[]⟩).2 = c4Trace from rfl,
      c4Trace_eq]; norm_num)
    2
    (by rw [show (stepTail 0 c4Banks [] [] ⟨[]⟩).2 = c4Trace from rfl,
      c4Trace_eq]; norm_num)
    (by rw [show (stepTail 0 c4Banks [] [] ⟨[]⟩).2 = c4Trace from rfl,
      c4Trace_eq]; rfl)
    (by rw [show (stepTail 0 c4Banks [] [] ⟨[]⟩).2 = c4Trace from rfl,
      c4Trace_eq]; rfl)

end Spec2Proof
